import Mathlib

/-!
# Reconciliation context assembly (`operator/pkg/reconciliation/context.go`)

A shallow embedding of `CreateReconciliationContext` and `retrieveDatacenter`.

* Go values of type `error` are `Option String` (`none` is `nil`).
* Go multi-value returns are pairs; a possibly-nil pointer is an `Option`.
* The collaborators (`Client.Get`, `Client.Status().Patch`,
  `httphelper.BuildManagementApiHttpClient`, `httphelper.GetManagementApiProtocol`,
  the wall clock behind `metav1.Now`) are parameters; the store they act on is an
  explicit state of an arbitrary type `σ`.
* Every collaborator call and every log line is appended to a trace.
-/

namespace Reconciliation

/-! ## Data model -/

/-- An instant, as nanoseconds since January 1, year 1, 00:00:00 UTC, the instant of
Go's zero `time.Time` (`metav1.Time` wraps `time.Time`). -/
structure Time where
  nanos : Int
  deriving DecidableEq, Repr

/-- Seconds from January 1, year 1 to January 1, 1970 (`unixToInternal` of Go's `time`). -/
def unixToInternal : Int := (1969 * 365 + 1969 / 4 - 1969 / 100 + 1969 / 400) * 86400

/-- The method `IsZero` of `metav1.Time`: the zero instant. -/
def Time.IsZero (t : Time) : Bool := t.nanos == 0

/-- The constructor `metav1.Unix(sec, nsec)`. -/
def Unix (sec nsec : Int) : Time := ⟨(sec + unixToInternal) * 1000000000 + nsec⟩

instance : LE Time := ⟨fun a b => a.nanos ≤ b.nanos⟩

instance (a b : Time) : Decidable (a ≤ b) := inferInstanceAs (Decidable (a.nanos ≤ b.nanos))

/-- Go `error`: `none` is `nil`. -/
abbrev error := Option String

/-- The type `types.NamespacedName`. -/
structure NamespacedName where
  Namespace : String
  Name : String
  deriving DecidableEq, Repr

/-- The type `reconcile.Request` (it embeds `types.NamespacedName`). -/
structure Request where
  NamespacedName : NamespacedName
  deriving DecidableEq, Repr

/-- The promoted field `req.Namespace`. -/
def Request.Namespace (req : Request) : String := req.NamespacedName.Namespace

/-- Modelled from the spec: the type `api.CassandraDatacenterSpec` is declared outside
this file. `ClusterName` is the field the code reads; `Rest` stands for every other
field of the spec (the encryption configuration among them). -/
structure CassandraDatacenterSpec where
  ClusterName : String
  Rest : List (String × String)
  deriving DecidableEq, Repr

/-- Modelled from the spec: the type `api.CassandraDatacenterStatus` is declared outside
this file. The three timestamps are the fields the code reads and writes; `Rest`
stands for every other field of the status. -/
structure CassandraDatacenterStatus where
  SuperUserUpserted : Time
  LastServerNodeStarted : Time
  LastRollingRestart : Time
  Rest : List (String × String)
  deriving DecidableEq, Repr

/-- Modelled from the spec: the type `api.CassandraDatacenter` is declared outside this
file; its identity is namespace and name. -/
structure CassandraDatacenter where
  Name : String
  Namespace : String
  Spec : CassandraDatacenterSpec
  Status : CassandraDatacenterStatus
  deriving DecidableEq, Repr

/-- The Go zero value `api.CassandraDatacenter{}`. -/
def CassandraDatacenter.empty : CassandraDatacenter :=
  { Name := "", Namespace := "", Spec := ⟨"", []⟩, Status := ⟨⟨0⟩, ⟨0⟩, ⟨0⟩, []⟩ }

/-- Modelled from the spec: the method `DeepCopy` is generated outside this file. It
captures the current record as the patch baseline: a copy with no shared structure,
that is, the same value. -/
def CassandraDatacenter.DeepCopy (dc : CassandraDatacenter) : CassandraDatacenter := dc

/-- A `logr.Logger`: the sink it writes to and the key/value pairs attached so far. -/
structure Logger where
  sink : String
  values : List (String × String)
  deriving DecidableEq, Repr

/-- The method `WithValues`: a new logger with one more pair; the receiver is unchanged. -/
def Logger.WithValues (l : Logger) (k v : String) : Logger :=
  { l with values := l.values ++ [(k, v)] }

/-- A `context.Context`. -/
inductive Context where
  | Background
  deriving DecidableEq, Repr

/-- A `*runtime.Scheme`, by identity. -/
structure Scheme where
  id : Nat
  deriving DecidableEq, Repr

/-- A `record.EventRecorder`, by identity. -/
structure EventRecorder where
  id : Nat
  deriving DecidableEq, Repr

/-- The `http.Client` returned by `BuildManagementApiHttpClient`, by identity;
`HttpClient.nil` is the nil interface value. -/
structure HttpClient where
  id : Nat
  deriving DecidableEq, Repr

/-- The nil `HttpClient`. -/
def HttpClient.nil : HttpClient := ⟨0⟩

/-- Modelled from the spec: the struct `httphelper.NodeMgmtClient` is declared outside
this file; the fields are the three that lines 102-106 fill in. -/
structure NodeMgmtClient where
  Client : HttpClient
  Log : Option Logger
  Protocol : String
  deriving DecidableEq, Repr

/-- The Go zero value `httphelper.NodeMgmtClient{}`. -/
def NodeMgmtClient.zero : NodeMgmtClient := ⟨HttpClient.nil, none, ""⟩

/-- The interface `runtimeClient.Client` over a store of type `σ`.
`Get` reads the store and fills the object handed to it; `StatusPatch` is
`Status().Patch(ctx, obj, patch)` where `patch = MergeFrom(baseline)`: as in section 6
of the specification (`patch(baseline, mutatedCopy) -> OK | ConflictError |
TransportError`) it reports `nil` or an error and acts on the store. -/
structure Client (σ : Type) where
  Get : σ → Context → NamespacedName → CassandraDatacenter → CassandraDatacenter × error
  StatusPatch : σ → Context → CassandraDatacenter → CassandraDatacenter → error × σ

/-- The functions of package `httphelper` that this file calls, defined outside it
and taken as parameters. Building the client may read the store; resolving the
protocol inspects the record only. -/
structure Httphelper (σ : Type) where
  BuildManagementApiHttpClient :
    σ → CassandraDatacenter → Client σ → Context → HttpClient × error
  GetManagementApiProtocol : CassandraDatacenter → String × error

/-- The struct `ReconciliationContext`. -/
structure ReconciliationContext (σ : Type) where
  Request : Request
  Client : Client σ
  Scheme : Scheme
  Datacenter : Option CassandraDatacenter
  NodeMgmtClient : NodeMgmtClient
  Recorder : EventRecorder
  ReqLogger : Logger
  Ctx : Context
  Services : List String
  desiredRackInformation : List String
  statefulSets : List String

/-- One observable action of the phase. -/
inductive Event where
  | Info (log : Logger) (msg : String)
  | Error (log : Logger) (err : String) (msg : String)
  | Get (key : NamespacedName)
  | StatusPatch (obj baseline : CassandraDatacenter)
  | BuildManagementApiHttpClient (dc : CassandraDatacenter)
  | GetManagementApiProtocol (dc : CassandraDatacenter)
  deriving DecidableEq, Repr

/-- Is the event a `Status().Patch` call? -/
def Event.isPatch : Event → Bool
  | .StatusPatch _ _ => true
  | _ => false

/-- Is the event a `BuildManagementApiHttpClient` call? -/
def Event.isBuild : Event → Bool
  | .BuildManagementApiHttpClient _ => true
  | _ => false

/-- Is the event a `GetManagementApiProtocol` call? -/
def Event.isProtocol : Event → Bool
  | .GetManagementApiProtocol _ => true
  | _ => false

/-- Is the event a store `Get`? -/
def Event.isGet : Event → Bool
  | .Get _ => true
  | _ => false

/-- What a run of the phase leaves behind: the returned pair, the trace, the store. -/
structure Outcome (σ : Type) where
  rc : Option (ReconciliationContext σ)
  err : error
  trace : List Event
  store : σ

/-! ## The code -/

/-- The function `retrieveDatacenter` (context.go, lines 111-117). -/
def retrieveDatacenter {σ : Type} (rc : ReconciliationContext σ) (s : σ) (request : Request)
    (dc : CassandraDatacenter) : CassandraDatacenter × error :=
  rc.Client.Get s rc.Ctx request.NamespacedName dc

/-- Lines 68-74 of `CreateReconciliationContext`: the workaround for zero-value times. -/
def normalizeTimestamps (dc : CassandraDatacenter) : CassandraDatacenter :=
  let dc :=
    if dc.Status.SuperUserUpserted.IsZero then
      { dc with Status := { dc.Status with SuperUserUpserted := Unix 1 0 } }
    else dc
  if dc.Status.LastServerNodeStarted.IsZero then
    { dc with Status := { dc.Status with LastServerNodeStarted := Unix 1 0 } }
  else dc

/-- Lines 86-108 of `CreateReconciliationContext`: build the HTTP client, attach the
datacenter and cluster names to the logger, resolve the protocol, fill in
`NodeMgmtClient`. `rc.Datacenter` points at `dc`. -/
def assembleNodeMgmtClient {σ : Type} (hh : Httphelper σ) (s : σ)
    (rc : ReconciliationContext σ) (dc : CassandraDatacenter) (cli : Client σ)
    (tr : List Event) : Outcome σ :=
  let built := hh.BuildManagementApiHttpClient s dc cli rc.Ctx
  let tr := tr ++ [Event.BuildManagementApiHttpClient dc]
  match built.2 with
  | some err =>
    ⟨none, some err,
      tr ++ [Event.Error rc.ReqLogger err "error in BuildManagementApiHttpClient"], s⟩
  | none =>
    let httpClient := built.1
    let withName := rc.ReqLogger.WithValues "datacenterName" dc.Name
    let rc := { rc with ReqLogger := withName.WithValues "clusterName" dc.Spec.ClusterName }
    let resolved := hh.GetManagementApiProtocol dc
    let tr := tr ++ [Event.GetManagementApiProtocol dc]
    match resolved.2 with
    | some err =>
      ⟨none, some err,
        tr ++ [Event.Error rc.ReqLogger err "error in GetManagementApiProtocol"], s⟩
    | none =>
      let protocol := resolved.1
      let rc := { rc with NodeMgmtClient :=
        { Client := httpClient, Log := some rc.ReqLogger, Protocol := protocol } }
      ⟨some rc, none, tr, s⟩

/-- The function `CreateReconciliationContext` (context.go, lines 40-109).
`clock n` is the wall-clock reading once `n` actions have been observed and `start`
the number observed when the phase begins, so `metav1.Now()` reads
`clock (start + number of events so far)`. -/
def CreateReconciliationContext {σ : Type} (hh : Httphelper σ) (clock : Nat → Time)
    (start : Nat) (s : σ) (req : Request) (cli : Client σ) (scheme : Scheme)
    (rec : EventRecorder) (reqLogger : Logger) : Outcome σ :=
  let rc : ReconciliationContext σ :=
    { Request := req, Client := cli, Scheme := scheme, Datacenter := none,
      NodeMgmtClient := NodeMgmtClient.zero, Recorder := rec, ReqLogger := reqLogger,
      Ctx := Context.Background, Services := [], desiredRackInformation := [],
      statefulSets := [] }
  let rc := { rc with ReqLogger := rc.ReqLogger.WithValues "namespace" req.Namespace }
  let tr := [Event.Info rc.ReqLogger "handler::CreateReconciliationContext"]
  -- Fetch the datacenter resource
  let got := retrieveDatacenter rc s req CassandraDatacenter.empty
  let tr := tr ++ [Event.Get req.NamespacedName]
  match got.2 with
  | some err =>
    ⟨none, some err, tr ++ [Event.Error rc.ReqLogger err "error in retrieveDatacenter"], s⟩
  | none =>
    -- workaround for kubernetes having problems with zero-value and nil Times
    let dc := normalizeTimestamps got.1
    let rc := { rc with Datacenter := some dc }
    if dc.Status.LastRollingRestart.IsZero then
      let baseline := dc.DeepCopy
      let dc := { dc with Status :=
        { dc.Status with LastRollingRestart := clock (start + tr.length) } }
      let rc := { rc with Datacenter := some dc }
      let res := rc.Client.StatusPatch s rc.Ctx dc baseline
      let tr := tr ++ [Event.StatusPatch dc baseline]
      match res.1 with
      | some err =>
        ⟨none, some err,
          tr ++ [Event.Error rc.ReqLogger err
            "error patching datacenter status for rolling restart"], res.2⟩
      | none => assembleNodeMgmtClient hh res.2 rc dc cli tr
    else assembleNodeMgmtClient hh s rc dc cli tr

/-! ## Observations on a run -/

/-- The number of `Status().Patch` calls in a trace. -/
def patchCalls (tr : List Event) : Nat := tr.countP Event.isPatch

/-- The number of `BuildManagementApiHttpClient` calls in a trace. -/
def buildCalls (tr : List Event) : Nat := tr.countP Event.isBuild

/-- The number of `GetManagementApiProtocol` calls in a trace. -/
def protocolCalls (tr : List Event) : Nat := tr.countP Event.isProtocol

/-- The fields on which two records differ: what a merge patch computed from
`baseline` (`MergeFrom(baseline)`) carries for `obj`. -/
def changedFields (baseline obj : CassandraDatacenter) : List String :=
  (if baseline.Name = obj.Name then [] else ["metadata.name"]) ++
  (if baseline.Namespace = obj.Namespace then [] else ["metadata.namespace"]) ++
  (if baseline.Spec = obj.Spec then [] else ["spec"]) ++
  (if baseline.Status.SuperUserUpserted = obj.Status.SuperUserUpserted then []
    else ["status.superUserUpserted"]) ++
  (if baseline.Status.LastServerNodeStarted = obj.Status.LastServerNodeStarted then []
    else ["status.lastServerNodeStarted"]) ++
  (if baseline.Status.LastRollingRestart = obj.Status.LastRollingRestart then []
    else ["status.lastRollingRestart"]) ++
  (if baseline.Status.Rest = obj.Status.Rest then [] else ["status.rest"])

/-! ## An in-memory store, to run the phase on concrete inputs -/

/-- An in-memory store: the records it holds and the failures it is set to report. -/
structure MemStore where
  records : List CassandraDatacenter
  getFails : error
  patchFails : error
  deriving DecidableEq, Repr

/-- Does the record have this namespace and name? -/
def hasKey (key : NamespacedName) (d : CassandraDatacenter) : Bool :=
  d.Namespace == key.Namespace && d.Name == key.Name

/-- Write to `d` the status fields on which `obj` differs from `baseline`. -/
def applyStatusPatch (baseline obj d : CassandraDatacenter) : CassandraDatacenter :=
  let st := d.Status
  let st := if baseline.Status.SuperUserUpserted = obj.Status.SuperUserUpserted then st
    else { st with SuperUserUpserted := obj.Status.SuperUserUpserted }
  let st := if baseline.Status.LastServerNodeStarted = obj.Status.LastServerNodeStarted then st
    else { st with LastServerNodeStarted := obj.Status.LastServerNodeStarted }
  let st := if baseline.Status.LastRollingRestart = obj.Status.LastRollingRestart then st
    else { st with LastRollingRestart := obj.Status.LastRollingRestart }
  let st := if baseline.Status.Rest = obj.Status.Rest then st
    else { st with Rest := obj.Status.Rest }
  { d with Status := st }

/-- The client of the in-memory store. -/
def memClient : Client MemStore where
  Get s _ key obj :=
    match s.getFails with
    | some e => (obj, some e)
    | none =>
      match s.records.find? (hasKey key) with
      | some d => (d, none)
      | none => (obj, some "not found")
  StatusPatch s _ obj baseline :=
    match s.patchFails with
    | some e => (some e, s)
    | none =>
      if s.records.any (hasKey ⟨obj.Namespace, obj.Name⟩) then
        (none, { s with records := s.records.map fun d =>
          if (hasKey ⟨obj.Namespace, obj.Name⟩ d) then applyStatusPatch baseline obj d else d })
      else (some "not found", s)

/-- An `httphelper` for concrete runs: the protocol is read from the spec entry
`"encryption"` (`"on"`, `"off"` or absent; anything else is an error), and building
the client fails when the spec has the entry `"tls"` set to `"missing"`. -/
def memHelper : Httphelper MemStore where
  BuildManagementApiHttpClient _ dc _ _ :=
    if dc.Spec.Rest.lookup "tls" = some "missing" then (HttpClient.nil, some "no tls material")
    else (⟨1⟩, none)
  GetManagementApiProtocol dc :=
    match dc.Spec.Rest.lookup "encryption" with
    | none => ("http", none)
    | some "off" => ("http", none)
    | some "on" => ("https", none)
    | some _ => ("", some "malformed encryption configuration")

/-- A record named `dc1` in namespace `ns1` of cluster `c1`, with the given
timestamps and spec entries. -/
def sampleDC (suu lsns lrr : Int) (specRest : List (String × String)) : CassandraDatacenter :=
  { Name := "dc1", Namespace := "ns1", Spec := ⟨"c1", specRest⟩,
    Status := ⟨⟨suu⟩, ⟨lsns⟩, ⟨lrr⟩, []⟩ }

/-- The request for `ns1/dc1`. -/
def sampleReq : Request := ⟨⟨"ns1", "dc1"⟩⟩

/-- A clock that starts after the Unix epoch and advances one second per action. -/
def sampleClock (n : Nat) : Time := Unix (1600000000 + n) 0

/-- A run of the phase on the in-memory store for `ns1/dc1`. -/
def sampleRun (s : MemStore) : Outcome MemStore :=
  CreateReconciliationContext memHelper sampleClock 0 s sampleReq memClient ⟨1⟩ ⟨1⟩ ⟨"base", []⟩

/-- What `retrieveDatacenter` yields for a request: the object as `Get` filled it,
and the error. -/
def loaded {σ : Type} (cli : Client σ) (s : σ) (req : Request) : CassandraDatacenter × error :=
  cli.Get s Context.Background req.NamespacedName CassandraDatacenter.empty

/-- The record with `Status.LastRollingRestart` set to `t`. -/
def withLastRollingRestart (dc : CassandraDatacenter) (t : Time) : CassandraDatacenter :=
  { dc with Status := { dc.Status with LastRollingRestart := t } }

/-- The `Status().Patch` calls of a trace, as pairs of object and baseline. -/
def patchesOf : List Event → List (CassandraDatacenter × CassandraDatacenter)
  | [] => []
  | Event.StatusPatch obj baseline :: tr => (obj, baseline) :: patchesOf tr
  | _ :: tr => patchesOf tr

/-- The record `dc` points at when `CreateReconciliationContext` returns a context:
the loaded record after lines 68-84. -/
def finalRecord {σ : Type} (clock : Nat → Time) (start : Nat) (cli : Client σ) (s : σ)
    (req : Request) : CassandraDatacenter :=
  if (loaded cli s req).1.Status.LastRollingRestart.IsZero then
    withLastRollingRestart (normalizeTimestamps (loaded cli s req).1) (clock (start + 2))
  else normalizeTimestamps (loaded cli s req).1

/-- A store holding `ns1/dc1` with a rolling restart recorded and an encryption
setting that is neither `on` nor `off`. -/
def malformedStore : MemStore :=
  ⟨[sampleDC 0 0 77 [("encryption", "bogus")]], none, none⟩

/-- As `malformedStore`, and the TLS material is missing too. -/
def malformedNoTlsStore : MemStore :=
  ⟨[sampleDC 0 0 77 [("encryption", "bogus"), ("tls", "missing")]], none, none⟩

/-- The store after `n` further runs for the same request through the same client;
run `i` has its own helpers `hh i`, clock `clock i` and starting count `start i`. -/
def storeAfterRuns {σ : Type} (hh : Nat → Httphelper σ) (clock : Nat → Nat → Time)
    (start : Nat → Nat) (req : Request) (cli : Client σ) (scheme : Scheme)
    (rec : EventRecorder) (reqLogger : Logger) (s : σ) : Nat → σ
  | 0 => s
  | n + 1 =>
    (CreateReconciliationContext (hh n) (clock n) (start n)
      (storeAfterRuns hh clock start req cli scheme rec reqLogger s n)
      req cli scheme rec reqLogger).store

/-! ## Theorems -/

section lemmas

theorem normalizeTimestamps_LastRollingRestart (dc : CassandraDatacenter) :
    (normalizeTimestamps dc).Status.LastRollingRestart = dc.Status.LastRollingRestart := by
  simp only [normalizeTimestamps]
  split_ifs <;> rfl

theorem normalizeTimestamps_frame (dc : CassandraDatacenter) :
    (normalizeTimestamps dc).Name = dc.Name ∧
    (normalizeTimestamps dc).Namespace = dc.Namespace ∧
    (normalizeTimestamps dc).Spec = dc.Spec ∧
    (normalizeTimestamps dc).Status.Rest = dc.Status.Rest := by
  simp only [normalizeTimestamps]
  split_ifs <;> simp

theorem patchesOf_append (a b : List Event) :
    patchesOf (a ++ b) = patchesOf a ++ patchesOf b := by
  induction a with
  | nil => rfl
  | cons x xs ih => cases x <;> simp [patchesOf, ih]

theorem patchCalls_eq_length (tr : List Event) : patchCalls tr = (patchesOf tr).length := by
  induction tr with
  | nil => rfl
  | cons x xs ih =>
    cases x <;> simp_all [patchCalls, patchesOf, List.countP_cons, Event.isPatch]

/-- The context `assembleNodeMgmtClient` returns when both helper calls succeed. -/
def assembled {σ : Type} (hh : Httphelper σ) (s : σ) (rc : ReconciliationContext σ)
    (dc : CassandraDatacenter) (cli : Client σ) : ReconciliationContext σ :=
  { rc with
    ReqLogger := (rc.ReqLogger.WithValues "datacenterName" dc.Name).WithValues
      "clusterName" dc.Spec.ClusterName
    NodeMgmtClient :=
      { Client := (hh.BuildManagementApiHttpClient s dc cli rc.Ctx).1
        Log := some ((rc.ReqLogger.WithValues "datacenterName" dc.Name).WithValues
          "clusterName" dc.Spec.ClusterName)
        Protocol := (hh.GetManagementApiProtocol dc).1 } }

theorem assemble_store {σ : Type} (hh : Httphelper σ) (s : σ) (rc : ReconciliationContext σ)
    (dc : CassandraDatacenter) (cli : Client σ) (tr : List Event) :
    (assembleNodeMgmtClient hh s rc dc cli tr).store = s := by
  simp only [assembleNodeMgmtClient]
  split
  · rfl
  · split <;> rfl

theorem assemble_patches {σ : Type} (hh : Httphelper σ) (s : σ)
    (rc : ReconciliationContext σ) (dc : CassandraDatacenter) (cli : Client σ)
    (tr : List Event) :
    patchesOf (assembleNodeMgmtClient hh s rc dc cli tr).trace = patchesOf tr := by
  simp only [assembleNodeMgmtClient]
  split
  · simp [patchesOf_append, patchesOf]
  · split <;> simp [patchesOf_append, patchesOf]

theorem assemble_result {σ : Type} (hh : Httphelper σ) (s : σ)
    (rc : ReconciliationContext σ) (dc : CassandraDatacenter) (cli : Client σ)
    (tr : List Event) :
    ((assembleNodeMgmtClient hh s rc dc cli tr).rc = none ∧
      ∃ e, (assembleNodeMgmtClient hh s rc dc cli tr).err = some e) ∨
    ((assembleNodeMgmtClient hh s rc dc cli tr).err = none ∧
      (assembleNodeMgmtClient hh s rc dc cli tr).rc = some (assembled hh s rc dc cli) ∧
      (hh.BuildManagementApiHttpClient s dc cli rc.Ctx).2 = none ∧
      (hh.GetManagementApiProtocol dc).2 = none) := by
  simp only [assembleNodeMgmtClient, assembled]
  split
  · simp
  · split <;> simp_all

/-- The context as it stands once the record is loaded: the arguments, the logger
with the namespace attached, and `Datacenter` pointing at `dc`. -/
def loadedContext {σ : Type} (req : Request) (cli : Client σ) (scheme : Scheme)
    (rec : EventRecorder) (reqLogger : Logger) (dc : CassandraDatacenter) :
    ReconciliationContext σ :=
  { Request := req, Client := cli, Scheme := scheme, Datacenter := some dc,
    NodeMgmtClient := NodeMgmtClient.zero, Recorder := rec,
    ReqLogger := reqLogger.WithValues "namespace" req.Namespace,
    Ctx := Context.Background, Services := [], desiredRackInformation := [],
    statefulSets := [] }

/-- The first two events of every run. -/
def prologue (req : Request) (reqLogger : Logger) : List Event :=
  [Event.Info (reqLogger.WithValues "namespace" req.Namespace)
      "handler::CreateReconciliationContext",
    Event.Get req.NamespacedName]

/-- The object of the bootstrap patch for a run. -/
def patchObject {σ : Type} (clock : Nat → Time) (start : Nat) (cli : Client σ) (s : σ)
    (req : Request) : CassandraDatacenter :=
  withLastRollingRestart (normalizeTimestamps (loaded cli s req).1) (clock (start + 2))

/-- The baseline of the bootstrap patch for a run. -/
def patchBaseline {σ : Type} (cli : Client σ) (s : σ) (req : Request) : CassandraDatacenter :=
  normalizeTimestamps (loaded cli s req).1

/-- What the bootstrap patch of a run returns. -/
def patchResult {σ : Type} (clock : Nat → Time) (start : Nat) (cli : Client σ) (s : σ)
    (req : Request) : error × σ :=
  cli.StatusPatch s Context.Background (patchObject clock start cli s req)
    (patchBaseline cli s req)

theorem run_get_error {σ : Type} (hh : Httphelper σ) (clock : Nat → Time)
    (start : Nat) (s : σ) (req : Request) (cli : Client σ) (scheme : Scheme)
    (rec : EventRecorder) (reqLogger : Logger) (e : String)
    (hget : (loaded cli s req).2 = some e) :
    CreateReconciliationContext hh clock start s req cli scheme rec reqLogger =
      ⟨none, some e, prologue req reqLogger ++
        [Event.Error (reqLogger.WithValues "namespace" req.Namespace) e
          "error in retrieveDatacenter"], s⟩ := by
  unfold loaded at hget
  simp [CreateReconciliationContext, retrieveDatacenter, hget, prologue]

theorem run_already_set {σ : Type} (hh : Httphelper σ) (clock : Nat → Time)
    (start : Nat) (s : σ) (req : Request) (cli : Client σ) (scheme : Scheme)
    (rec : EventRecorder) (reqLogger : Logger)
    (hget : (loaded cli s req).2 = none)
    (hset : (loaded cli s req).1.Status.LastRollingRestart.IsZero = false) :
    CreateReconciliationContext hh clock start s req cli scheme rec reqLogger =
      assembleNodeMgmtClient hh s
        (loadedContext req cli scheme rec reqLogger (normalizeTimestamps (loaded cli s req).1))
        (normalizeTimestamps (loaded cli s req).1) cli (prologue req reqLogger) := by
  unfold loaded at hget hset
  simp [CreateReconciliationContext, retrieveDatacenter, hget, prologue, loadedContext,
    normalizeTimestamps_LastRollingRestart, hset, loaded]

theorem run_patch_error {σ : Type} (hh : Httphelper σ) (clock : Nat → Time)
    (start : Nat) (s : σ) (req : Request) (cli : Client σ) (scheme : Scheme)
    (rec : EventRecorder) (reqLogger : Logger) (e : String)
    (hget : (loaded cli s req).2 = none)
    (hzero : (loaded cli s req).1.Status.LastRollingRestart.IsZero = true)
    (hpatch : (patchResult clock start cli s req).1 = some e) :
    CreateReconciliationContext hh clock start s req cli scheme rec reqLogger =
      ⟨none, some e, prologue req reqLogger ++
        [Event.StatusPatch (patchObject clock start cli s req) (patchBaseline cli s req),
          Event.Error (reqLogger.WithValues "namespace" req.Namespace) e
            "error patching datacenter status for rolling restart"],
        (patchResult clock start cli s req).2⟩ := by
  unfold patchResult patchObject patchBaseline withLastRollingRestart loaded at *
  simp [CreateReconciliationContext, retrieveDatacenter, hget, prologue,
    normalizeTimestamps_LastRollingRestart, hzero, CassandraDatacenter.DeepCopy, hpatch]

theorem run_patch_ok {σ : Type} (hh : Httphelper σ) (clock : Nat → Time)
    (start : Nat) (s : σ) (req : Request) (cli : Client σ) (scheme : Scheme)
    (rec : EventRecorder) (reqLogger : Logger)
    (hget : (loaded cli s req).2 = none)
    (hzero : (loaded cli s req).1.Status.LastRollingRestart.IsZero = true)
    (hpatch : (patchResult clock start cli s req).1 = none) :
    CreateReconciliationContext hh clock start s req cli scheme rec reqLogger =
      assembleNodeMgmtClient hh (patchResult clock start cli s req).2
        (loadedContext req cli scheme rec reqLogger (patchObject clock start cli s req))
        (patchObject clock start cli s req) cli
        (prologue req reqLogger ++
          [Event.StatusPatch (patchObject clock start cli s req) (patchBaseline cli s req)]) := by
  unfold patchResult patchObject patchBaseline withLastRollingRestart loaded at *
  simp [CreateReconciliationContext, retrieveDatacenter, hget, prologue, loadedContext,
    normalizeTimestamps_LastRollingRestart, hzero, CassandraDatacenter.DeepCopy, hpatch]

theorem assemble_build_error {σ : Type} (hh : Httphelper σ) (s : σ)
    (rc : ReconciliationContext σ) (dc : CassandraDatacenter) (cli : Client σ)
    (tr : List Event) (e : String)
    (hb : (hh.BuildManagementApiHttpClient s dc cli rc.Ctx).2 = some e) :
    assembleNodeMgmtClient hh s rc dc cli tr =
      ⟨none, some e, tr ++ [Event.BuildManagementApiHttpClient dc,
        Event.Error rc.ReqLogger e "error in BuildManagementApiHttpClient"], s⟩ := by
  simp [assembleNodeMgmtClient, hb]

theorem assemble_protocol_error {σ : Type} (hh : Httphelper σ) (s : σ)
    (rc : ReconciliationContext σ) (dc : CassandraDatacenter) (cli : Client σ)
    (tr : List Event) (e : String)
    (hb : (hh.BuildManagementApiHttpClient s dc cli rc.Ctx).2 = none)
    (hp : (hh.GetManagementApiProtocol dc).2 = some e) :
    assembleNodeMgmtClient hh s rc dc cli tr =
      ⟨none, some e, tr ++ [Event.BuildManagementApiHttpClient dc,
        Event.GetManagementApiProtocol dc,
        Event.Error ((rc.ReqLogger.WithValues "datacenterName" dc.Name).WithValues
          "clusterName" dc.Spec.ClusterName) e "error in GetManagementApiProtocol"], s⟩ := by
  simp [assembleNodeMgmtClient, hb, hp]

theorem assemble_ok {σ : Type} (hh : Httphelper σ) (s : σ)
    (rc : ReconciliationContext σ) (dc : CassandraDatacenter) (cli : Client σ)
    (tr : List Event)
    (hb : (hh.BuildManagementApiHttpClient s dc cli rc.Ctx).2 = none)
    (hp : (hh.GetManagementApiProtocol dc).2 = none) :
    assembleNodeMgmtClient hh s rc dc cli tr =
      ⟨some (assembled hh s rc dc cli), none, tr ++ [Event.BuildManagementApiHttpClient dc,
        Event.GetManagementApiProtocol dc], s⟩ := by
  simp [assembleNodeMgmtClient, hb, hp, assembled]

theorem already_set_no_write {σ : Type} (hh : Httphelper σ) (clock : Nat → Time)
    (start : Nat) (s : σ) (req : Request) (cli : Client σ) (scheme : Scheme)
    (rec : EventRecorder) (reqLogger : Logger)
    (hget : (loaded cli s req).2 = none)
    (hset : (loaded cli s req).1.Status.LastRollingRestart.IsZero = false) :
    patchesOf (CreateReconciliationContext hh clock start s req cli scheme rec reqLogger).trace
      = [] ∧
    (CreateReconciliationContext hh clock start s req cli scheme rec reqLogger).store = s := by
  rw [run_already_set hh clock start s req cli scheme rec reqLogger hget hset]
  exact ⟨by rw [assemble_patches]; rfl, assemble_store _ _ _ _ _ _⟩

theorem run_patches_cases {σ : Type} (hh : Httphelper σ) (clock : Nat → Time)
    (start : Nat) (s : σ) (req : Request) (cli : Client σ) (scheme : Scheme)
    (rec : EventRecorder) (reqLogger : Logger) :
    (patchesOf
        (CreateReconciliationContext hh clock start s req cli scheme rec reqLogger).trace = [] ∧
      (CreateReconciliationContext hh clock start s req cli scheme rec reqLogger).store = s) ∨
    ((loaded cli s req).2 = none ∧
      (loaded cli s req).1.Status.LastRollingRestart.IsZero = true ∧
      patchesOf
        (CreateReconciliationContext hh clock start s req cli scheme rec reqLogger).trace
        = [(patchObject clock start cli s req, patchBaseline cli s req)]) := by
  cases hget : (loaded cli s req).2 with
  | some e =>
    rw [run_get_error hh clock start s req cli scheme rec reqLogger e hget]
    exact Or.inl ⟨by simp [patchesOf_append, patchesOf, prologue], rfl⟩
  | none =>
    cases hz : (loaded cli s req).1.Status.LastRollingRestart.IsZero with
    | false =>
      exact Or.inl (already_set_no_write hh clock start s req cli scheme rec reqLogger hget hz)
    | true =>
      refine Or.inr ⟨rfl, rfl, ?_⟩
      cases h : (patchResult clock start cli s req).1 with
      | some e =>
        rw [run_patch_error hh clock start s req cli scheme rec reqLogger e hget hz h]
        simp [patchesOf_append, patchesOf, prologue]
      | none =>
        rw [run_patch_ok hh clock start s req cli scheme rec reqLogger hget hz h,
          assemble_patches]
        simp [patchesOf_append, patchesOf, prologue]

theorem run_trace_prologue {σ : Type} (hh : Httphelper σ) (clock : Nat → Time)
    (start : Nat) (s : σ) (req : Request) (cli : Client σ) (scheme : Scheme)
    (rec : EventRecorder) (reqLogger : Logger) :
    ∃ rest, (CreateReconciliationContext hh clock start s req cli scheme rec reqLogger).trace
        = prologue req reqLogger ++ rest ∧ rest.countP Event.isGet = 0 := by
  have hasm : ∀ (s1 : σ) (rc : ReconciliationContext σ) (dc : CassandraDatacenter)
      (tr more : List Event), more.countP Event.isGet = 0 →
      ∃ rest, (assembleNodeMgmtClient hh s1 rc dc cli (tr ++ more)).trace = tr ++ rest ∧
        rest.countP Event.isGet = 0 := by
    intro s1 rc dc tr more hmore
    cases hb : (hh.BuildManagementApiHttpClient s1 dc cli rc.Ctx).2 with
    | some e =>
      rw [assemble_build_error hh s1 rc dc cli _ e hb]
      exact ⟨_, List.append_assoc _ _ _, by simp [List.countP_append, hmore, Event.isGet]⟩
    | none =>
      cases hp : (hh.GetManagementApiProtocol dc).2 with
      | some e =>
        rw [assemble_protocol_error hh s1 rc dc cli _ e hb hp]
        exact ⟨_, List.append_assoc _ _ _, by simp [List.countP_append, hmore, Event.isGet]⟩
      | none =>
        rw [assemble_ok hh s1 rc dc cli _ hb hp]
        exact ⟨_, List.append_assoc _ _ _, by simp [List.countP_append, hmore, Event.isGet]⟩
  cases hget : (loaded cli s req).2 with
  | some e =>
    rw [run_get_error hh clock start s req cli scheme rec reqLogger e hget]
    exact ⟨_, rfl, by simp [Event.isGet]⟩
  | none =>
    cases hz : (loaded cli s req).1.Status.LastRollingRestart.IsZero with
    | false =>
      rw [run_already_set hh clock start s req cli scheme rec reqLogger hget hz]
      have := hasm s (loadedContext req cli scheme rec reqLogger
        (normalizeTimestamps (loaded cli s req).1)) (normalizeTimestamps (loaded cli s req).1)
        (prologue req reqLogger) [] rfl
      simpa using this
    | true =>
      cases h : (patchResult clock start cli s req).1 with
      | some e =>
        rw [run_patch_error hh clock start s req cli scheme rec reqLogger e hget hz h]
        exact ⟨_, rfl, by simp [Event.isGet]⟩
      | none =>
        rw [run_patch_ok hh clock start s req cli scheme rec reqLogger hget hz h]
        exact hasm _ _ _ _ _ (by simp [Event.isGet])

end lemmas

/-- C1: when the store `Get` returns an error `e`, `CreateReconciliationContext`
returns `(nil, e)` with `e` unchanged, and the trace holds no `Status().Patch` call, no
`BuildManagementApiHttpClient` call and no `GetManagementApiProtocol` call; the store is
left as it was. -/
theorem get_error_is_returned {σ : Type} (hh : Httphelper σ) (clock : Nat → Time)
    (start : Nat) (s : σ) (req : Request) (cli : Client σ) (scheme : Scheme)
    (rec : EventRecorder) (reqLogger : Logger) (e : String)
    (h : (cli.Get s Context.Background req.NamespacedName CassandraDatacenter.empty).2
      = some e) :
    (CreateReconciliationContext hh clock start s req cli scheme rec reqLogger).rc = none ∧
    (CreateReconciliationContext hh clock start s req cli scheme rec reqLogger).err = some e ∧
    patchCalls (CreateReconciliationContext hh clock start s req cli scheme rec reqLogger).trace
      = 0 ∧
    buildCalls (CreateReconciliationContext hh clock start s req cli scheme rec reqLogger).trace
      = 0 ∧
    protocolCalls
      (CreateReconciliationContext hh clock start s req cli scheme rec reqLogger).trace = 0 ∧
    (CreateReconciliationContext hh clock start s req cli scheme rec reqLogger).store = s := by
  simp [CreateReconciliationContext, retrieveDatacenter, h, patchCalls, buildCalls,
    protocolCalls, Event.isPatch, Event.isBuild, Event.isProtocol]

/-- The witness of `get_error_is_returned`: a request for a record the store does not hold. -/
theorem get_error_is_returned_witness :
    (memClient.Get ⟨[], none, none⟩ Context.Background sampleReq.NamespacedName
      CassandraDatacenter.empty).2 = some "not found" ∧
    (sampleRun ⟨[], none, none⟩).rc = none ∧
    (sampleRun ⟨[], none, none⟩).err = some "not found" ∧
    patchCalls (sampleRun ⟨[], none, none⟩).trace = 0 ∧
    buildCalls (sampleRun ⟨[], none, none⟩).trace = 0 ∧
    protocolCalls (sampleRun ⟨[], none, none⟩).trace = 0 ∧
    (sampleRun ⟨[], none, none⟩).store = ⟨[], none, none⟩ :=
  ⟨rfl, get_error_is_returned memHelper sampleClock 0 ⟨[], none, none⟩ sampleReq memClient
    ⟨1⟩ ⟨1⟩ ⟨"base", []⟩ "not found" rfl⟩

/-- C2: when the loaded record has `Status.LastRollingRestart` zero and the
`Status().Patch` call returns an error `e`, `CreateReconciliationContext` returns
`(nil, e)`; the failed patch is the last collaborator call of the run, so the trace holds
no `GetManagementApiProtocol` call and no `BuildManagementApiHttpClient` call. -/
theorem patch_error_is_returned {σ : Type} (hh : Httphelper σ) (clock : Nat → Time)
    (start : Nat) (s : σ) (req : Request) (cli : Client σ) (scheme : Scheme)
    (rec : EventRecorder) (reqLogger : Logger) (e : String)
    (hget : (loaded cli s req).2 = none)
    (hzero : (loaded cli s req).1.Status.LastRollingRestart.IsZero = true)
    (hpatch : (cli.StatusPatch s Context.Background
      (withLastRollingRestart (normalizeTimestamps (loaded cli s req).1) (clock (start + 2)))
      (normalizeTimestamps (loaded cli s req).1)).1 = some e) :
    (CreateReconciliationContext hh clock start s req cli scheme rec reqLogger).rc = none ∧
    (CreateReconciliationContext hh clock start s req cli scheme rec reqLogger).err = some e ∧
    protocolCalls
      (CreateReconciliationContext hh clock start s req cli scheme rec reqLogger).trace = 0 ∧
    buildCalls (CreateReconciliationContext hh clock start s req cli scheme rec reqLogger).trace
      = 0 ∧
    (CreateReconciliationContext hh clock start s req cli scheme rec reqLogger).trace =
      [Event.Info (reqLogger.WithValues "namespace" req.Namespace)
          "handler::CreateReconciliationContext",
        Event.Get req.NamespacedName,
        Event.StatusPatch
          (withLastRollingRestart (normalizeTimestamps (loaded cli s req).1)
            (clock (start + 2)))
          (normalizeTimestamps (loaded cli s req).1),
        Event.Error (reqLogger.WithValues "namespace" req.Namespace) e
          "error patching datacenter status for rolling restart"] := by
  unfold loaded at hget hzero hpatch
  unfold withLastRollingRestart at hpatch
  simp [CreateReconciliationContext, retrieveDatacenter, hget,
    normalizeTimestamps_LastRollingRestart, hzero, CassandraDatacenter.DeepCopy, hpatch,
    buildCalls, protocolCalls, Event.isBuild, Event.isProtocol, loaded,
    withLastRollingRestart]

/-- The witness of `patch_error_is_returned`: the store holds `ns1/dc1` with no rolling
restart recorded and rejects the patch with a conflict. -/
theorem patch_error_is_returned_witness :
    (loaded memClient ⟨[sampleDC 0 0 0 []], none, some "conflict"⟩ sampleReq).2 = none ∧
    (loaded memClient ⟨[sampleDC 0 0 0 []], none, some "conflict"⟩
      sampleReq).1.Status.LastRollingRestart.IsZero = true ∧
    (sampleRun ⟨[sampleDC 0 0 0 []], none, some "conflict"⟩).rc = none ∧
    (sampleRun ⟨[sampleDC 0 0 0 []], none, some "conflict"⟩).err = some "conflict" ∧
    protocolCalls (sampleRun ⟨[sampleDC 0 0 0 []], none, some "conflict"⟩).trace = 0 ∧
    buildCalls (sampleRun ⟨[sampleDC 0 0 0 []], none, some "conflict"⟩).trace = 0 :=
  ⟨rfl, rfl,
    (patch_error_is_returned memHelper sampleClock 0 ⟨[sampleDC 0 0 0 []], none, some "conflict"⟩
      sampleReq memClient ⟨1⟩ ⟨1⟩ ⟨"base", []⟩ "conflict" rfl rfl rfl).1,
    (patch_error_is_returned memHelper sampleClock 0 ⟨[sampleDC 0 0 0 []], none, some "conflict"⟩
      sampleReq memClient ⟨1⟩ ⟨1⟩ ⟨"base", []⟩ "conflict" rfl rfl rfl).2.1,
    (patch_error_is_returned memHelper sampleClock 0 ⟨[sampleDC 0 0 0 []], none, some "conflict"⟩
      sampleReq memClient ⟨1⟩ ⟨1⟩ ⟨"base", []⟩ "conflict" rfl rfl rfl).2.2.1,
    (patch_error_is_returned memHelper sampleClock 0 ⟨[sampleDC 0 0 0 []], none, some "conflict"⟩
      sampleReq memClient ⟨1⟩ ⟨1⟩ ⟨"base", []⟩ "conflict" rfl rfl rfl).2.2.2.1⟩

/-- C3: when the loaded record has `Status.LastRollingRestart` zero, the run issues
exactly one `Status().Patch` call; the object of that call is the normalised record
with `LastRollingRestart` set to the clock reading taken during the run, which for a
monotone clock is at or after the reading at which the phase began; and when that
patch, `BuildManagementApiHttpClient` and `GetManagementApiProtocol` all succeed, a
context is returned with no error whose `Datacenter` is that object, so its
`LastRollingRestart` is the new value. -/
theorem bootstrap_patches_once {σ : Type} (hh : Httphelper σ) (clock : Nat → Time)
    (start : Nat) (s : σ) (req : Request) (cli : Client σ) (scheme : Scheme)
    (rec : EventRecorder) (reqLogger : Logger)
    (hget : (loaded cli s req).2 = none)
    (hzero : (loaded cli s req).1.Status.LastRollingRestart.IsZero = true) :
    patchesOf (CreateReconciliationContext hh clock start s req cli scheme rec reqLogger).trace
      = [(patchObject clock start cli s req, patchBaseline cli s req)] ∧
    patchCalls (CreateReconciliationContext hh clock start s req cli scheme rec reqLogger).trace
      = 1 ∧
    (patchObject clock start cli s req).Status.LastRollingRestart = clock (start + 2) ∧
    ((∀ m n : Nat, m ≤ n → clock m ≤ clock n) →
      clock start ≤ (patchObject clock start cli s req).Status.LastRollingRestart) ∧
    ((patchResult clock start cli s req).1 = none →
      (hh.BuildManagementApiHttpClient (patchResult clock start cli s req).2
        (patchObject clock start cli s req) cli Context.Background).2 = none →
      (hh.GetManagementApiProtocol (patchObject clock start cli s req)).2 = none →
      (CreateReconciliationContext hh clock start s req cli scheme rec reqLogger).err = none ∧
      ∃ rc, (CreateReconciliationContext hh clock start s req cli scheme rec reqLogger).rc
          = some rc ∧
        rc.Datacenter = some (patchObject clock start cli s req) ∧
        rc.Datacenter.map (fun d => d.Status.LastRollingRestart) = some (clock (start + 2))) := by
  have hp : patchesOf
      (CreateReconciliationContext hh clock start s req cli scheme rec reqLogger).trace
      = [(patchObject clock start cli s req, patchBaseline cli s req)] := by
    cases h : (patchResult clock start cli s req).1 with
    | some e =>
      rw [run_patch_error hh clock start s req cli scheme rec reqLogger e hget hzero h]
      simp [patchesOf_append, patchesOf, prologue]
    | none =>
      rw [run_patch_ok hh clock start s req cli scheme rec reqLogger hget hzero h,
        assemble_patches]
      simp [patchesOf_append, patchesOf, prologue]
  refine ⟨hp, by rw [patchCalls_eq_length, hp]; rfl, rfl, fun hmono => hmono _ _ (by omega), ?_⟩
  intro h1 h2 h3
  rw [run_patch_ok hh clock start s req cli scheme rec reqLogger hget hzero h1,
    assemble_ok hh _ _ _ cli _ h2 h3]
  exact ⟨rfl, _, rfl, rfl, rfl⟩

/-- The witness of `bootstrap_patches_once`: the store holds `ns1/dc1` with all three
timestamps zero; the run patches once and returns a context whose record carries the
clock reading. -/
theorem bootstrap_patches_once_witness :
    (loaded memClient ⟨[sampleDC 0 0 0 []], none, none⟩ sampleReq).2 = none ∧
    (loaded memClient ⟨[sampleDC 0 0 0 []], none, none⟩
      sampleReq).1.Status.LastRollingRestart.IsZero = true ∧
    patchCalls (sampleRun ⟨[sampleDC 0 0 0 []], none, none⟩).trace = 1 ∧
    (sampleRun ⟨[sampleDC 0 0 0 []], none, none⟩).err = none ∧
    (∃ rc, (sampleRun ⟨[sampleDC 0 0 0 []], none, none⟩).rc = some rc ∧
      rc.Datacenter.map (fun d => d.Status.LastRollingRestart) = some (sampleClock 2)) ∧
    sampleClock 0 ≤ sampleClock 2 :=
  ⟨rfl, rfl,
    (bootstrap_patches_once memHelper sampleClock 0 ⟨[sampleDC 0 0 0 []], none, none⟩ sampleReq
      memClient ⟨1⟩ ⟨1⟩ ⟨"base", []⟩ rfl rfl).2.1,
    ((bootstrap_patches_once memHelper sampleClock 0 ⟨[sampleDC 0 0 0 []], none, none⟩ sampleReq
      memClient ⟨1⟩ ⟨1⟩ ⟨"base", []⟩ rfl rfl).2.2.2.2 rfl rfl rfl).1,
    (((bootstrap_patches_once memHelper sampleClock 0 ⟨[sampleDC 0 0 0 []], none, none⟩
      sampleReq memClient ⟨1⟩ ⟨1⟩ ⟨"base", []⟩ rfl rfl).2.2.2.2 rfl rfl rfl).2.imp
        fun _ h => ⟨h.1, h.2.2⟩),
    by decide⟩

/-- C4: when the loaded record has `Status.LastRollingRestart` already non-zero, the
run issues no `Status().Patch` call and leaves the store as it was, whatever
`BuildManagementApiHttpClient` and `GetManagementApiProtocol` return; every context
returned carries the loaded `LastRollingRestart`, and one is returned when both
helper calls succeed. -/
theorem no_patch_when_already_set {σ : Type} (hh : Httphelper σ) (clock : Nat → Time)
    (start : Nat) (s : σ) (req : Request) (cli : Client σ) (scheme : Scheme)
    (rec : EventRecorder) (reqLogger : Logger)
    (hget : (loaded cli s req).2 = none)
    (hset : (loaded cli s req).1.Status.LastRollingRestart.IsZero = false) :
    patchCalls (CreateReconciliationContext hh clock start s req cli scheme rec reqLogger).trace
      = 0 ∧
    (CreateReconciliationContext hh clock start s req cli scheme rec reqLogger).store = s ∧
    (∀ rc, (CreateReconciliationContext hh clock start s req cli scheme rec reqLogger).rc
        = some rc →
      rc.Datacenter.map (fun d => d.Status.LastRollingRestart)
        = some (loaded cli s req).1.Status.LastRollingRestart) ∧
    ((hh.BuildManagementApiHttpClient s (normalizeTimestamps (loaded cli s req).1) cli
        Context.Background).2 = none →
      (hh.GetManagementApiProtocol (normalizeTimestamps (loaded cli s req).1)).2 = none →
      (CreateReconciliationContext hh clock start s req cli scheme rec reqLogger).err = none ∧
      ∃ rc, (CreateReconciliationContext hh clock start s req cli scheme rec reqLogger).rc
        = some rc) := by
  rw [run_already_set hh clock start s req cli scheme rec reqLogger hget hset]
  refine ⟨?_, assemble_store _ _ _ _ _ _, ?_, ?_⟩
  · rw [patchCalls_eq_length, assemble_patches]
    rfl
  · intro rc hrc
    rcases assemble_result hh s
      (loadedContext req cli scheme rec reqLogger (normalizeTimestamps (loaded cli s req).1))
      (normalizeTimestamps (loaded cli s req).1) cli (prologue req reqLogger) with h | h
    · rw [h.1] at hrc
      cases hrc
    · rw [h.2.1] at hrc
      cases hrc
      simp [assembled, loadedContext, normalizeTimestamps_LastRollingRestart]
  · intro hb hp
    rw [assemble_ok hh s _ _ cli _ hb hp]
    exact ⟨rfl, _, rfl⟩

/-- The witness of `no_patch_when_already_set`: the store holds `ns1/dc1` with a rolling
restart recorded at instant 77. -/
theorem no_patch_when_already_set_witness :
    (loaded memClient ⟨[sampleDC 0 0 77 []], none, none⟩ sampleReq).2 = none ∧
    (loaded memClient ⟨[sampleDC 0 0 77 []], none, none⟩
      sampleReq).1.Status.LastRollingRestart.IsZero = false ∧
    patchCalls (sampleRun ⟨[sampleDC 0 0 77 []], none, none⟩).trace = 0 ∧
    (sampleRun ⟨[sampleDC 0 0 77 []], none, none⟩).store = ⟨[sampleDC 0 0 77 []], none, none⟩ ∧
    (sampleRun ⟨[sampleDC 0 0 77 []], none, none⟩).err = none ∧
    ∃ rc, (sampleRun ⟨[sampleDC 0 0 77 []], none, none⟩).rc = some rc ∧
      rc.Datacenter.map (fun d => d.Status.LastRollingRestart) = some ⟨77⟩ :=
  ⟨rfl, rfl,
    (no_patch_when_already_set memHelper sampleClock 0 ⟨[sampleDC 0 0 77 []], none, none⟩
      sampleReq memClient ⟨1⟩ ⟨1⟩ ⟨"base", []⟩ rfl rfl).1,
    (no_patch_when_already_set memHelper sampleClock 0 ⟨[sampleDC 0 0 77 []], none, none⟩
      sampleReq memClient ⟨1⟩ ⟨1⟩ ⟨"base", []⟩ rfl rfl).2.1,
    ((no_patch_when_already_set memHelper sampleClock 0 ⟨[sampleDC 0 0 77 []], none, none⟩
      sampleReq memClient ⟨1⟩ ⟨1⟩ ⟨"base", []⟩ rfl rfl).2.2.2 rfl rfl).1,
    (((no_patch_when_already_set memHelper sampleClock 0 ⟨[sampleDC 0 0 77 []], none, none⟩
      sampleReq memClient ⟨1⟩ ⟨1⟩ ⟨"base", []⟩ rfl rfl).2.2.2 rfl rfl).2.imp fun rc h =>
        ⟨h, (no_patch_when_already_set memHelper sampleClock 0
          ⟨[sampleDC 0 0 77 []], none, none⟩ sampleReq memClient ⟨1⟩ ⟨1⟩ ⟨"base", []⟩
          rfl rfl).2.2.1 rc h⟩)⟩

/-- C5: the normalisation step sets each of `Status.SuperUserUpserted` and
`Status.LastServerNodeStarted` to `metav1.Unix(1, 0)` when the loaded value is zero and
keeps the loaded value otherwise; so when both are zero both become the sentinel, and
when both are non-zero the record is unchanged. The sentinel is one second after
`Unix(0, 0)` and is not zero, and normalising twice gives what normalising once gives. -/
theorem normalizeTimestamps_sentinel (dc : CassandraDatacenter) :
    (normalizeTimestamps dc).Status.SuperUserUpserted =
      (if dc.Status.SuperUserUpserted.IsZero then Unix 1 0
        else dc.Status.SuperUserUpserted) ∧
    (normalizeTimestamps dc).Status.LastServerNodeStarted =
      (if dc.Status.LastServerNodeStarted.IsZero then Unix 1 0
        else dc.Status.LastServerNodeStarted) ∧
    (dc.Status.SuperUserUpserted.IsZero = true →
      dc.Status.LastServerNodeStarted.IsZero = true →
      (normalizeTimestamps dc).Status.SuperUserUpserted = Unix 1 0 ∧
      (normalizeTimestamps dc).Status.LastServerNodeStarted = Unix 1 0) ∧
    (dc.Status.SuperUserUpserted.IsZero = false →
      dc.Status.LastServerNodeStarted.IsZero = false → normalizeTimestamps dc = dc) ∧
    (Unix 1 0).nanos = (Unix 0 0).nanos + 1000000000 ∧
    (Unix 1 0).IsZero = false ∧
    normalizeTimestamps (normalizeTimestamps dc) = normalizeTimestamps dc := by
  have hs : (Unix 1 0).IsZero = false := by decide
  refine ⟨?_, ?_, ?_, ?_, by decide, hs, ?_⟩
  · simp only [normalizeTimestamps]
    split_ifs <;> rfl
  · simp only [normalizeTimestamps]
    split_ifs <;> rfl
  · intro h1 h2
    simp [normalizeTimestamps, h1, h2]
  · intro h1 h2
    simp [normalizeTimestamps, h1, h2]
  · simp only [normalizeTimestamps]
    split_ifs <;> simp_all

/-- The witness of `normalizeTimestamps_sentinel`: a record with both timestamps zero
and a record with both set. -/
theorem normalizeTimestamps_sentinel_witness :
    ((normalizeTimestamps (sampleDC 0 0 0 [])).Status.SuperUserUpserted = Unix 1 0 ∧
      (normalizeTimestamps (sampleDC 0 0 0 [])).Status.LastServerNodeStarted = Unix 1 0) ∧
    normalizeTimestamps (sampleDC 5 6 0 []) = sampleDC 5 6 0 [] :=
  ⟨(normalizeTimestamps_sentinel (sampleDC 0 0 0 [])).2.2.1 rfl rfl,
    (normalizeTimestamps_sentinel (sampleDC 5 6 0 [])).2.2.2.1 rfl rfl⟩

/-- C6, as the claim states it, fails: on `malformedStore` the record has
`LastRollingRestart` set and `GetManagementApiProtocol` returns an error, yet the trace
holds a `BuildManagementApiHttpClient` call; and on `malformedNoTlsStore` the error
returned is the one of `BuildManagementApiHttpClient`, with `GetManagementApiProtocol`
never called. -/
theorem protocol_error_before_build_counterexample :
    ((loaded memClient malformedStore sampleReq).2 = none ∧
      (loaded memClient malformedStore sampleReq).1.Status.LastRollingRestart.IsZero = false ∧
      (memHelper.GetManagementApiProtocol (loaded memClient malformedStore sampleReq).1).2
        = some "malformed encryption configuration" ∧
      (sampleRun malformedStore).err = some "malformed encryption configuration" ∧
      buildCalls (sampleRun malformedStore).trace = 1 ∧
      ¬ buildCalls (sampleRun malformedStore).trace = 0) ∧
    ((loaded memClient malformedNoTlsStore sampleReq).1.Status.LastRollingRestart.IsZero
        = false ∧
      (memHelper.GetManagementApiProtocol (loaded memClient malformedNoTlsStore sampleReq).1).2
        = some "malformed encryption configuration" ∧
      (sampleRun malformedNoTlsStore).err = some "no tls material" ∧
      protocolCalls (sampleRun malformedNoTlsStore).trace = 0) := by
  refine ⟨⟨rfl, rfl, rfl, rfl, rfl, ?_⟩, rfl, rfl, rfl, rfl⟩
  decide

/-- C6, amended: when the loaded record has `LastRollingRestart` set,
`BuildManagementApiHttpClient` succeeds and `GetManagementApiProtocol` returns an error
`e`, `CreateReconciliationContext` returns `(nil, e)`; the client builder runs before the
protocol resolver, so the trace holds exactly one `BuildManagementApiHttpClient` call,
followed by the one `GetManagementApiProtocol` call, and no `Status().Patch` call. -/
theorem protocol_error_after_build {σ : Type} (hh : Httphelper σ) (clock : Nat → Time)
    (start : Nat) (s : σ) (req : Request) (cli : Client σ) (scheme : Scheme)
    (rec : EventRecorder) (reqLogger : Logger) (e : String)
    (hget : (loaded cli s req).2 = none)
    (hset : (loaded cli s req).1.Status.LastRollingRestart.IsZero = false)
    (hb : (hh.BuildManagementApiHttpClient s (normalizeTimestamps (loaded cli s req).1) cli
      Context.Background).2 = none)
    (hp : (hh.GetManagementApiProtocol (normalizeTimestamps (loaded cli s req).1)).2
      = some e) :
    (CreateReconciliationContext hh clock start s req cli scheme rec reqLogger).rc = none ∧
    (CreateReconciliationContext hh clock start s req cli scheme rec reqLogger).err = some e ∧
    buildCalls (CreateReconciliationContext hh clock start s req cli scheme rec reqLogger).trace
      = 1 ∧
    protocolCalls
      (CreateReconciliationContext hh clock start s req cli scheme rec reqLogger).trace = 1 ∧
    patchCalls (CreateReconciliationContext hh clock start s req cli scheme rec reqLogger).trace
      = 0 ∧
    (CreateReconciliationContext hh clock start s req cli scheme rec reqLogger).trace =
      prologue req reqLogger ++
        [Event.BuildManagementApiHttpClient (normalizeTimestamps (loaded cli s req).1),
          Event.GetManagementApiProtocol (normalizeTimestamps (loaded cli s req).1),
          Event.Error
            (((reqLogger.WithValues "namespace" req.Namespace).WithValues "datacenterName"
              (loaded cli s req).1.Name).WithValues "clusterName"
              (loaded cli s req).1.Spec.ClusterName)
            e "error in GetManagementApiProtocol"] := by
  rw [run_already_set hh clock start s req cli scheme rec reqLogger hget hset,
    assemble_protocol_error hh s _ _ cli _ e hb hp]
  have hf := normalizeTimestamps_frame (loaded cli s req).1
  simp [prologue, buildCalls, protocolCalls, patchCalls, Event.isBuild, Event.isProtocol,
    Event.isPatch, loadedContext, hf.1, hf.2.2.1]

/-- The witness of `protocol_error_after_build`, on `malformedStore`. -/
theorem protocol_error_after_build_witness :
    (sampleRun malformedStore).rc = none ∧
    (sampleRun malformedStore).err = some "malformed encryption configuration" ∧
    buildCalls (sampleRun malformedStore).trace = 1 ∧
    protocolCalls (sampleRun malformedStore).trace = 1 ∧
    patchCalls (sampleRun malformedStore).trace = 0 :=
  ⟨(protocol_error_after_build memHelper sampleClock 0 malformedStore sampleReq memClient
      ⟨1⟩ ⟨1⟩ ⟨"base", []⟩ "malformed encryption configuration" rfl rfl rfl rfl).1,
    (protocol_error_after_build memHelper sampleClock 0 malformedStore sampleReq memClient
      ⟨1⟩ ⟨1⟩ ⟨"base", []⟩ "malformed encryption configuration" rfl rfl rfl rfl).2.1,
    (protocol_error_after_build memHelper sampleClock 0 malformedStore sampleReq memClient
      ⟨1⟩ ⟨1⟩ ⟨"base", []⟩ "malformed encryption configuration" rfl rfl rfl rfl).2.2.1,
    (protocol_error_after_build memHelper sampleClock 0 malformedStore sampleReq memClient
      ⟨1⟩ ⟨1⟩ ⟨"base", []⟩ "malformed encryption configuration" rfl rfl rfl rfl).2.2.2.1,
    (protocol_error_after_build memHelper sampleClock 0 malformedStore sampleReq memClient
      ⟨1⟩ ⟨1⟩ ⟨"base", []⟩ "malformed encryption configuration" rfl rfl rfl rfl).2.2.2.2.1⟩

/-- C7: construction is all-or-nothing. For every input and every behaviour of the
collaborators, `CreateReconciliationContext` returns either `(nil, err)` with `err`
non-nil, or `(rc, nil)` where `rc.Request`, `rc.Client`, `rc.Scheme` and `rc.Recorder`
are the arguments, `rc.Datacenter` is the record `Get` loaded (in its state at return:
it has the loaded name, namespace, spec and remaining status, and equals the loaded
record when none of the three timestamps is zero), and `rc.NodeMgmtClient` has `Client`
the result of `BuildManagementApiHttpClient`, `Protocol` the result of
`GetManagementApiProtocol` and `Log` equal to `rc.ReqLogger`. -/
theorem all_or_nothing {σ : Type} (hh : Httphelper σ) (clock : Nat → Time)
    (start : Nat) (s : σ) (req : Request) (cli : Client σ) (scheme : Scheme)
    (rec : EventRecorder) (reqLogger : Logger) :
    ((CreateReconciliationContext hh clock start s req cli scheme rec reqLogger).rc = none ∧
      ∃ e, (CreateReconciliationContext hh clock start s req cli scheme rec reqLogger).err
        = some e) ∨
    ((CreateReconciliationContext hh clock start s req cli scheme rec reqLogger).err = none ∧
      ∃ rc, (CreateReconciliationContext hh clock start s req cli scheme rec reqLogger).rc
          = some rc ∧
        rc.Request = req ∧ rc.Client = cli ∧ rc.Scheme = scheme ∧ rc.Recorder = rec ∧
        (loaded cli s req).2 = none ∧
        rc.Datacenter = some (finalRecord clock start cli s req) ∧
        (finalRecord clock start cli s req).Name = (loaded cli s req).1.Name ∧
        (finalRecord clock start cli s req).Namespace = (loaded cli s req).1.Namespace ∧
        (finalRecord clock start cli s req).Spec = (loaded cli s req).1.Spec ∧
        (finalRecord clock start cli s req).Status.Rest = (loaded cli s req).1.Status.Rest ∧
        ((loaded cli s req).1.Status.SuperUserUpserted.IsZero = false →
          (loaded cli s req).1.Status.LastServerNodeStarted.IsZero = false →
          (loaded cli s req).1.Status.LastRollingRestart.IsZero = false →
          finalRecord clock start cli s req = (loaded cli s req).1) ∧
        rc.NodeMgmtClient.Client =
          (hh.BuildManagementApiHttpClient
            (CreateReconciliationContext hh clock start s req cli scheme rec reqLogger).store
            (finalRecord clock start cli s req) cli Context.Background).1 ∧
        (hh.BuildManagementApiHttpClient
          (CreateReconciliationContext hh clock start s req cli scheme rec reqLogger).store
          (finalRecord clock start cli s req) cli Context.Background).2 = none ∧
        rc.NodeMgmtClient.Protocol =
          (hh.GetManagementApiProtocol (finalRecord clock start cli s req)).1 ∧
        (hh.GetManagementApiProtocol (finalRecord clock start cli s req)).2 = none ∧
        rc.NodeMgmtClient.Log = some rc.ReqLogger) := by
  have hf := normalizeTimestamps_frame (loaded cli s req).1
  have hfix : (loaded cli s req).1.Status.SuperUserUpserted.IsZero = false →
      (loaded cli s req).1.Status.LastServerNodeStarted.IsZero = false →
      (loaded cli s req).1.Status.LastRollingRestart.IsZero = false →
      finalRecord clock start cli s req = (loaded cli s req).1 := by
    intro h1 h2 h3
    simp [finalRecord, h3, normalizeTimestamps, h1, h2]
  cases hget : (loaded cli s req).2 with
  | some e =>
    rw [run_get_error hh clock start s req cli scheme rec reqLogger e hget]
    exact Or.inl ⟨rfl, e, rfl⟩
  | none =>
    cases hz : (loaded cli s req).1.Status.LastRollingRestart.IsZero with
    | false =>
      have hfin : finalRecord clock start cli s req
          = normalizeTimestamps (loaded cli s req).1 := by simp [finalRecord, hz]
      rw [run_already_set hh clock start s req cli scheme rec reqLogger hget hz]
      rcases assemble_result hh s
        (loadedContext req cli scheme rec reqLogger (normalizeTimestamps (loaded cli s req).1))
        (normalizeTimestamps (loaded cli s req).1) cli (prologue req reqLogger) with h | h
      · exact Or.inl h
      · refine Or.inr ⟨h.1, _, h.2.1, rfl, rfl, rfl, rfl, ?_⟩
        rw [assemble_store, hfin]
        exact ⟨rfl, rfl, hf.1, hf.2.1, hf.2.2.1, hf.2.2.2,
          fun h1 h2 _ => hfin.symm.trans (hfix h1 h2 hz), rfl, h.2.2.1, rfl, h.2.2.2, rfl⟩
    | true =>
      have hfin : finalRecord clock start cli s req = patchObject clock start cli s req := by
        simp [finalRecord, hz, patchObject]
      cases hpr : (patchResult clock start cli s req).1 with
      | some e =>
        rw [run_patch_error hh clock start s req cli scheme rec reqLogger e hget hz hpr]
        exact Or.inl ⟨rfl, e, rfl⟩
      | none =>
        rw [run_patch_ok hh clock start s req cli scheme rec reqLogger hget hz hpr]
        rcases assemble_result hh (patchResult clock start cli s req).2
          (loadedContext req cli scheme rec reqLogger (patchObject clock start cli s req))
          (patchObject clock start cli s req) cli
          (prologue req reqLogger ++ [Event.StatusPatch (patchObject clock start cli s req)
            (patchBaseline cli s req)]) with h | h
        · exact Or.inl h
        · refine Or.inr ⟨h.1, _, h.2.1, rfl, rfl, rfl, rfl, ?_⟩
          rw [assemble_store, hfin]
          exact ⟨rfl, rfl, hf.1, hf.2.1, hf.2.2.1, hf.2.2.2,
            fun _ _ h3 => Bool.noConfusion h3, rfl, h.2.2.1, rfl, h.2.2.2, rfl⟩

/-- C8: `LastRollingRestart` is set at most once by this phase. If a first run finds
`LastRollingRestart` zero and its patch succeeds, and the store it leaves holds the
patched, non-zero value under the request's namespace and name, then every later run
for that request against that store observes `LastRollingRestart` non-zero, issues no
`Status().Patch` call, and leaves the store, and so the stored `LastRollingRestart`,
as they were. -/
theorem rolling_restart_set_once {σ : Type} (hh0 : Httphelper σ) (clock0 : Nat → Time)
    (start0 : Nat) (s0 : σ) (req : Request) (cli : Client σ) (scheme : Scheme)
    (rec : EventRecorder) (reqLogger : Logger)
    (hh : Nat → Httphelper σ) (clock : Nat → Nat → Time) (start : Nat → Nat) (n : Nat)
    (hget : (loaded cli s0 req).2 = none)
    (hzero : (loaded cli s0 req).1.Status.LastRollingRestart.IsZero = true)
    (hpatch : (patchResult clock0 start0 cli s0 req).1 = none)
    (hheld : (loaded cli
        (CreateReconciliationContext hh0 clock0 start0 s0 req cli scheme rec reqLogger).store
        req).2 = none ∧
      (loaded cli
        (CreateReconciliationContext hh0 clock0 start0 s0 req cli scheme rec reqLogger).store
        req).1.Status.LastRollingRestart = clock0 (start0 + 2) ∧
      (clock0 (start0 + 2)).IsZero = false) :
    patchCalls
      (CreateReconciliationContext hh0 clock0 start0 s0 req cli scheme rec reqLogger).trace
      = 1 ∧
    (CreateReconciliationContext hh0 clock0 start0 s0 req cli scheme rec reqLogger).store
      = (patchResult clock0 start0 cli s0 req).2 ∧
    storeAfterRuns hh clock start req cli scheme rec reqLogger
        (CreateReconciliationContext hh0 clock0 start0 s0 req cli scheme rec reqLogger).store n
      = (CreateReconciliationContext hh0 clock0 start0 s0 req cli scheme rec reqLogger).store ∧
    (loaded cli (storeAfterRuns hh clock start req cli scheme rec reqLogger
        (CreateReconciliationContext hh0 clock0 start0 s0 req cli scheme rec reqLogger).store n)
      req).1.Status.LastRollingRestart.IsZero = false ∧
    patchCalls (CreateReconciliationContext (hh n) (clock n) (start n)
      (storeAfterRuns hh clock start req cli scheme rec reqLogger
        (CreateReconciliationContext hh0 clock0 start0 s0 req cli scheme rec reqLogger).store n)
      req cli scheme rec reqLogger).trace = 0 ∧
    (CreateReconciliationContext (hh n) (clock n) (start n)
      (storeAfterRuns hh clock start req cli scheme rec reqLogger
        (CreateReconciliationContext hh0 clock0 start0 s0 req cli scheme rec reqLogger).store n)
      req cli scheme rec reqLogger).store
      = (CreateReconciliationContext hh0 clock0 start0 s0 req cli scheme rec reqLogger).store ∧
    (loaded cli (CreateReconciliationContext (hh n) (clock n) (start n)
      (storeAfterRuns hh clock start req cli scheme rec reqLogger
        (CreateReconciliationContext hh0 clock0 start0 s0 req cli scheme rec reqLogger).store n)
      req cli scheme rec reqLogger).store req).1.Status.LastRollingRestart
      = clock0 (start0 + 2) := by
  have hset : (loaded cli
      (CreateReconciliationContext hh0 clock0 start0 s0 req cli scheme rec reqLogger).store
      req).1.Status.LastRollingRestart.IsZero = false := by
    rw [hheld.2.1]
    exact hheld.2.2
  have hstore : ∀ k, storeAfterRuns hh clock start req cli scheme rec reqLogger
      (CreateReconciliationContext hh0 clock0 start0 s0 req cli scheme rec reqLogger).store k
      = (CreateReconciliationContext hh0 clock0 start0 s0 req cli scheme rec reqLogger).store := by
    intro k
    induction k with
    | zero => rfl
    | succ k ih =>
      simp only [storeAfterRuns]
      rw [ih]
      exact (already_set_no_write (hh k) (clock k) (start k) _ req cli scheme rec reqLogger
        hheld.1 hset).2
  rw [hstore n]
  have hrun := already_set_no_write (hh n) (clock n) (start n) _ req cli scheme rec reqLogger
    hheld.1 hset
  refine ⟨?_, ?_, rfl, hset, ?_, hrun.2, ?_⟩
  · rw [patchCalls_eq_length,
      run_patch_ok hh0 clock0 start0 s0 req cli scheme rec reqLogger hget hzero hpatch,
      assemble_patches]
    simp [patchesOf_append, patchesOf, prologue]
  · rw [run_patch_ok hh0 clock0 start0 s0 req cli scheme rec reqLogger hget hzero hpatch,
      assemble_store]
  · rw [patchCalls_eq_length, hrun.1]
    rfl
  · rw [hrun.2]
    exact hheld.2.1

/-- The witness of `rolling_restart_set_once`: on the in-memory store holding `ns1/dc1`
with no rolling restart recorded, the first run patches; the fourth run after it
issues no patch and leaves the store as the first run left it. -/
theorem rolling_restart_set_once_witness :
    patchCalls (sampleRun ⟨[sampleDC 0 0 0 []], none, none⟩).trace = 1 ∧
    (sampleRun ⟨[sampleDC 0 0 0 []], none, none⟩).store
      = ⟨[sampleDC 0 0 (sampleClock 2).nanos []], none, none⟩ ∧
    (storeAfterRuns (fun _ => memHelper) (fun i k => sampleClock (10 * (i + 1) + k))
        (fun _ => 0) sampleReq memClient ⟨1⟩ ⟨1⟩ ⟨"base", []⟩
        (sampleRun ⟨[sampleDC 0 0 0 []], none, none⟩).store 3
      = (sampleRun ⟨[sampleDC 0 0 0 []], none, none⟩).store ∧
    (loaded memClient (storeAfterRuns (fun _ => memHelper)
        (fun i k => sampleClock (10 * (i + 1) + k)) (fun _ => 0) sampleReq memClient ⟨1⟩ ⟨1⟩
        ⟨"base", []⟩ (sampleRun ⟨[sampleDC 0 0 0 []], none, none⟩).store 3)
      sampleReq).1.Status.LastRollingRestart.IsZero = false ∧
    patchCalls (CreateReconciliationContext memHelper (fun k => sampleClock (10 * (3 + 1) + k)) 0
      (storeAfterRuns (fun _ => memHelper) (fun i k => sampleClock (10 * (i + 1) + k))
        (fun _ => 0) sampleReq memClient ⟨1⟩ ⟨1⟩ ⟨"base", []⟩
        (sampleRun ⟨[sampleDC 0 0 0 []], none, none⟩).store 3)
      sampleReq memClient ⟨1⟩ ⟨1⟩ ⟨"base", []⟩).trace = 0 ∧
    (CreateReconciliationContext memHelper (fun k => sampleClock (10 * (3 + 1) + k)) 0
      (storeAfterRuns (fun _ => memHelper) (fun i k => sampleClock (10 * (i + 1) + k))
        (fun _ => 0) sampleReq memClient ⟨1⟩ ⟨1⟩ ⟨"base", []⟩
        (sampleRun ⟨[sampleDC 0 0 0 []], none, none⟩).store 3)
      sampleReq memClient ⟨1⟩ ⟨1⟩ ⟨"base", []⟩).store
      = (sampleRun ⟨[sampleDC 0 0 0 []], none, none⟩).store ∧
    (loaded memClient (CreateReconciliationContext memHelper
      (fun k => sampleClock (10 * (3 + 1) + k)) 0
      (storeAfterRuns (fun _ => memHelper) (fun i k => sampleClock (10 * (i + 1) + k))
        (fun _ => 0) sampleReq memClient ⟨1⟩ ⟨1⟩ ⟨"base", []⟩
        (sampleRun ⟨[sampleDC 0 0 0 []], none, none⟩).store 3)
      sampleReq memClient ⟨1⟩ ⟨1⟩ ⟨"base", []⟩).store sampleReq).1.Status.LastRollingRestart
      = sampleClock (0 + 2)) :=
  ⟨rfl, rfl,
    (rolling_restart_set_once memHelper sampleClock 0 ⟨[sampleDC 0 0 0 []], none, none⟩
      sampleReq memClient ⟨1⟩ ⟨1⟩ ⟨"base", []⟩ (fun _ => memHelper)
      (fun i k => sampleClock (10 * (i + 1) + k)) (fun _ => 0) 3 rfl rfl rfl
      ⟨rfl, rfl, rfl⟩).2.2⟩

/-- C9: the timestamp normaliser causes no write by itself. In every run, each
`Status().Patch` call has as baseline the record as normalised, and as object that
baseline with `Status.LastRollingRestart` set to the clock reading; the two agree on
`Status.SuperUserUpserted`, on `Status.LastServerNodeStarted` and on every other
field, so the only field a merge patch between them can carry is
`status.lastRollingRestart`; a run with no patch call leaves the store as it was; and
when `LastRollingRestart` is already set the run issues no patch call, whether or
not the normaliser replaced a timestamp. -/
theorem normaliser_never_writes {σ : Type} (hh : Httphelper σ) (clock : Nat → Time)
    (start : Nat) (s : σ) (req : Request) (cli : Client σ) (scheme : Scheme)
    (rec : EventRecorder) (reqLogger : Logger) :
    (∀ p ∈ patchesOf
        (CreateReconciliationContext hh clock start s req cli scheme rec reqLogger).trace,
      p.2 = normalizeTimestamps (loaded cli s req).1 ∧
      p.1 = withLastRollingRestart p.2 (clock (start + 2)) ∧
      p.1.Status.SuperUserUpserted = p.2.Status.SuperUserUpserted ∧
      p.1.Status.LastServerNodeStarted = p.2.Status.LastServerNodeStarted ∧
      p.1.Name = p.2.Name ∧ p.1.Namespace = p.2.Namespace ∧ p.1.Spec = p.2.Spec ∧
      p.1.Status.Rest = p.2.Status.Rest ∧
      (∀ f ∈ changedFields p.2 p.1, f = "status.lastRollingRestart") ∧
      "status.superUserUpserted" ∉ changedFields p.2 p.1 ∧
      "status.lastServerNodeStarted" ∉ changedFields p.2 p.1) ∧
    (patchesOf
        (CreateReconciliationContext hh clock start s req cli scheme rec reqLogger).trace = [] →
      (CreateReconciliationContext hh clock start s req cli scheme rec reqLogger).store = s) ∧
    ((loaded cli s req).1.Status.LastRollingRestart.IsZero = false →
      patchesOf
        (CreateReconciliationContext hh clock start s req cli scheme rec reqLogger).trace = [] ∧
      (CreateReconciliationContext hh clock start s req cli scheme rec reqLogger).store = s) := by
  rcases run_patches_cases hh clock start s req cli scheme rec reqLogger with h | h
  · refine ⟨?_, fun _ => h.2, fun _ => h⟩
    intro p hp
    rw [h.1] at hp
    cases hp
  · refine ⟨?_, ?_, ?_⟩
    · intro p hp
      rw [h.2.2] at hp
      simp only [List.mem_singleton] at hp
      subst hp
      simp [patchObject, patchBaseline, withLastRollingRestart, changedFields]
    · intro hnil
      rw [h.2.2] at hnil
      cases hnil
    · intro hset
      rw [h.2.1] at hset
      cases hset

/-- The witness of `normaliser_never_writes`: with all three timestamps zero the one
patch differs from its baseline in `status.lastRollingRestart` only, and with the
rolling restart recorded (the other two still zero) nothing is written. -/
theorem normaliser_never_writes_witness :
    patchesOf (sampleRun ⟨[sampleDC 0 0 0 []], none, none⟩).trace =
      [(sampleDC (Unix 1 0).nanos (Unix 1 0).nanos (sampleClock 2).nanos [],
        sampleDC (Unix 1 0).nanos (Unix 1 0).nanos 0 [])] ∧
    changedFields (sampleDC (Unix 1 0).nanos (Unix 1 0).nanos 0 [])
      (sampleDC (Unix 1 0).nanos (Unix 1 0).nanos (sampleClock 2).nanos [])
      = ["status.lastRollingRestart"] ∧
    (∀ f ∈ changedFields (sampleDC (Unix 1 0).nanos (Unix 1 0).nanos 0 [])
        (sampleDC (Unix 1 0).nanos (Unix 1 0).nanos (sampleClock 2).nanos []),
      f = "status.lastRollingRestart") ∧
    patchesOf (sampleRun ⟨[sampleDC 0 0 77 []], none, none⟩).trace = [] ∧
    (sampleRun ⟨[sampleDC 0 0 77 []], none, none⟩).store = ⟨[sampleDC 0 0 77 []], none, none⟩ :=
  ⟨rfl, rfl,
    ((normaliser_never_writes memHelper sampleClock 0 ⟨[sampleDC 0 0 0 []], none, none⟩
      sampleReq memClient ⟨1⟩ ⟨1⟩ ⟨"base", []⟩).1
      (sampleDC (Unix 1 0).nanos (Unix 1 0).nanos (sampleClock 2).nanos [],
        sampleDC (Unix 1 0).nanos (Unix 1 0).nanos 0 [])
      (List.mem_singleton.mpr rfl)).2.2.2.2.2.2.2.2.1,
    (normaliser_never_writes memHelper sampleClock 0 ⟨[sampleDC 0 0 77 []], none, none⟩
      sampleReq memClient ⟨1⟩ ⟨1⟩ ⟨"base", []⟩).2.2 rfl⟩

/-- C10: every run starts by logging through the base logger with `namespace`
attached and only then issues its one store `Get`; and every context returned has as
`ReqLogger`, and as the `Log` of its `NodeMgmtClient`, the base logger with exactly the
pairs `namespace = req.Namespace`, `datacenterName = dc.Name` and
`clusterName = dc.Spec.ClusterName` appended, in that order, to the pairs the base
logger already had. -/
theorem logger_is_enriched {σ : Type} (hh : Httphelper σ) (clock : Nat → Time)
    (start : Nat) (s : σ) (req : Request) (cli : Client σ) (scheme : Scheme)
    (rec : EventRecorder) (reqLogger : Logger) :
    (∃ rest, (CreateReconciliationContext hh clock start s req cli scheme rec reqLogger).trace
        = Event.Info ⟨reqLogger.sink, reqLogger.values ++ [("namespace", req.Namespace)]⟩
            "handler::CreateReconciliationContext" ::
          Event.Get req.NamespacedName :: rest ∧
      rest.countP Event.isGet = 0) ∧
    (∀ rc, (CreateReconciliationContext hh clock start s req cli scheme rec reqLogger).rc
        = some rc →
      ∃ dc, rc.Datacenter = some dc ∧
        rc.ReqLogger = ⟨reqLogger.sink, reqLogger.values ++
          [("namespace", req.Namespace), ("datacenterName", dc.Name),
            ("clusterName", dc.Spec.ClusterName)]⟩ ∧
        rc.ReqLogger = ((reqLogger.WithValues "namespace" req.Namespace).WithValues
          "datacenterName" dc.Name).WithValues "clusterName" dc.Spec.ClusterName ∧
        rc.NodeMgmtClient.Log = some rc.ReqLogger) := by
  refine ⟨?_, ?_⟩
  · obtain ⟨rest, h1, h2⟩ := run_trace_prologue hh clock start s req cli scheme rec reqLogger
    exact ⟨rest, by rw [h1]; rfl, h2⟩
  · intro rc hrc
    have key : ∀ (s1 : σ) (dc : CassandraDatacenter) (tr : List Event),
        (assembleNodeMgmtClient hh s1 (loadedContext req cli scheme rec reqLogger dc) dc cli
          tr).rc = some rc →
        ∃ dc, rc.Datacenter = some dc ∧
          rc.ReqLogger = ⟨reqLogger.sink, reqLogger.values ++
            [("namespace", req.Namespace), ("datacenterName", dc.Name),
              ("clusterName", dc.Spec.ClusterName)]⟩ ∧
          rc.ReqLogger = ((reqLogger.WithValues "namespace" req.Namespace).WithValues
            "datacenterName" dc.Name).WithValues "clusterName" dc.Spec.ClusterName ∧
          rc.NodeMgmtClient.Log = some rc.ReqLogger := by
      intro s1 dc tr h
      rcases assemble_result hh s1 (loadedContext req cli scheme rec reqLogger dc) dc cli tr
        with h' | h'
      · rw [h'.1] at h
        cases h
      · rw [h'.2.1] at h
        cases h
        exact ⟨dc, rfl, by simp [assembled, loadedContext, Logger.WithValues], rfl, rfl⟩
    cases hget : (loaded cli s req).2 with
    | some e =>
      rw [run_get_error hh clock start s req cli scheme rec reqLogger e hget] at hrc
      cases hrc
    | none =>
      cases hz : (loaded cli s req).1.Status.LastRollingRestart.IsZero with
      | false =>
        rw [run_already_set hh clock start s req cli scheme rec reqLogger hget hz] at hrc
        exact key _ _ _ hrc
      | true =>
        cases h : (patchResult clock start cli s req).1 with
        | some e =>
          rw [run_patch_error hh clock start s req cli scheme rec reqLogger e hget hz h] at hrc
          cases hrc
        | none =>
          rw [run_patch_ok hh clock start s req cli scheme rec reqLogger hget hz h] at hrc
          exact key _ _ _ hrc

/-- The witness of `logger_is_enriched`: the context returned for `ns1/dc1` of
cluster `c1`. -/
theorem logger_is_enriched_witness :
    ∃ rc, (sampleRun ⟨[sampleDC 0 0 0 [("encryption", "on")]], none, none⟩).rc = some rc ∧
      rc.ReqLogger = ⟨"base", [("namespace", "ns1"), ("datacenterName", "dc1"),
        ("clusterName", "c1")]⟩ ∧
      rc.NodeMgmtClient = ⟨⟨1⟩, some rc.ReqLogger, "https"⟩ :=
  ⟨_, rfl,
    (((logger_is_enriched memHelper sampleClock 0
      ⟨[sampleDC 0 0 0 [("encryption", "on")]], none, none⟩ sampleReq memClient ⟨1⟩ ⟨1⟩
      ⟨"base", []⟩).2 _ rfl).elim fun _ h => h.2.1.trans (by cases h.1; rfl)),
    rfl⟩

/-- The witness of `all_or_nothing`: the run on a store holding `ns1/dc1` with a rolling
restart recorded returns a context and no error, fully populated. -/
theorem all_or_nothing_witness :
    (sampleRun ⟨[sampleDC 0 0 77 []], none, none⟩).err = none ∧
    ∃ rc, (sampleRun ⟨[sampleDC 0 0 77 []], none, none⟩).rc = some rc ∧
      rc.Request = sampleReq ∧
      rc.Datacenter = some (sampleDC (Unix 1 0).nanos (Unix 1 0).nanos 77 []) ∧
      rc.NodeMgmtClient.Client = ⟨1⟩ ∧
      rc.NodeMgmtClient.Protocol = "http" ∧
      rc.NodeMgmtClient.Log = some rc.ReqLogger :=
  ((all_or_nothing memHelper sampleClock 0 ⟨[sampleDC 0 0 77 []], none, none⟩ sampleReq
    memClient ⟨1⟩ ⟨1⟩ ⟨"base", []⟩).resolve_left
      (fun h => Option.noConfusion h.1)).imp id
    (fun h => h.imp fun _ h =>
      ⟨h.1, h.2.1, h.2.2.2.2.2.2.1, h.2.2.2.2.2.2.2.2.2.2.2.2.1,
        h.2.2.2.2.2.2.2.2.2.2.2.2.2.2.1, h.2.2.2.2.2.2.2.2.2.2.2.2.2.2.2.2⟩)

end Reconciliation
